import Mathlib

/-!
Shallow embedding of the car-rental booking service:
the booking-creation handler (`src/app/api/booking/create/route.ts`),
the payment webhook handler (`src/app/api/paystack/webhook/route.ts`),
and the booking wizard's pricing computation (client page,
`calculateBookingDetails`).

JavaScript values that matter to the handlers are modelled explicitly:
optional/absent JSON fields are `Option String` and JS truthiness
(`!x` false iff the string is present and non-empty) is `truthy`;
Supabase `.single()` / `.maybeSingle()` both hand the handler a row
exactly when the filter matches exactly one row (`singleRow`), since the
handlers only inspect `data`; each fallible insert/update is driven by an
explicit fault oracle, matching "each statement commits independently".
-/

namespace SwiftCar

/-- JS truthiness of an optional string field: `undefined`, `null` and
`""` are falsy, every other string is truthy. -/
def truthy : Option String → Bool
  | none => false
  | some s => !s.isEmpty

/-- JS `a || b` for an optional string `a` and string `b`. -/
def jsOr (a : Option String) (b : String) : String :=
  match a with
  | none => b
  | some s => if s.isEmpty then b else s

/-- JS `String.prototype.includes`. -/
def strIncludes (s sub : String) : Bool :=
  (s.splitOn sub).length > 1

/-- Supabase `.single()` / `.maybeSingle()` as used by the handlers:
`data` is a row exactly when the filtered result set has exactly one
row (zero rows: `maybeSingle` yields null data, `single` an error with
null data; two or more rows: both yield an error with null data — the
handlers only ever branch on `data`). -/
def singleRow {α : Type} : List α → Option α
  | [x] => some x
  | _ => none

/-! ## Database rows -/

structure UserRow where
  id : Nat
  whatsapp_id : String
  phone : String
  name : String
  email : Option String
  deriving Repr, DecidableEq

structure CarRow where
  id : Nat
  car_id : String
  status : String
  daily_rate : Int
  deriving Repr, DecidableEq

structure BookingRow where
  id : Nat
  order_id : String
  user_id : Nat
  car_id : Nat
  pickup_date : String
  return_date : String
  pickup_location : String
  days : Int
  daily_rate : Int
  total_amount : Int
  deposit_amount : Int
  balance_amount : Int
  status : String
  payment_status : String
  payment_reference : String
  deriving Repr, DecidableEq

structure PaymentRow where
  order_id : String
  payment_reference : String
  amount : Int
  currency : String
  status : String
  provider : String
  provider_reference : String
  paid_at : Option String
  metadata_sessionId : Option String
  deriving Repr, DecidableEq

structure SessionData where
  booking_completed : Bool
  payment_reference : String
  order_id : String
  booking_id : Option Nat
  deriving Repr, DecidableEq

structure SessionRow where
  whatsapp_id : String
  session_state : String
  session_data : Option SessionData
  last_message_at : String
  deriving Repr, DecidableEq

/-- The relational store as seen by the two handlers. -/
structure Db where
  users : List UserRow
  cars : List CarRow
  bookings : List BookingRow
  payments : List PaymentRow
  sessions : List SessionRow
  nextUserId : Nat
  nextBookingId : Nat
  deriving Repr, DecidableEq

/-! ## Identifier generation (`route.ts` lines 136-140)

`Math.random().toString(36)` prints `"0."` followed by the base-36
digits of the fraction, trailing zeros trimmed (just `"0"` when the
draw is exactly 0); `.substr(2, n)` keeps at most `n` of those digits;
`.toUpperCase()` upcases them.  A draw is therefore modelled as the
list of base-36 digits after the point. -/

/-- The base-36 digit character, as produced by `Number.toString(36)`:
`0`-`9` then `a`-`z`. -/
def base36Char (d : Nat) : Char :=
  if d < 10 then Char.ofNat (48 + d) else Char.ofNat (87 + d)

/-- `Math.random().toString(36).substr(2, n).toUpperCase()` where
`digits` are the base-36 fraction digits of the random draw. -/
def randSuffix (digits : List Nat) (n : Nat) : String :=
  String.mk ((digits.take n).map (fun d => (base36Char d).toUpper))

/-- `new Date().toISOString().slice(0, 10)` with the dashes removed
(the `replace` with the global dash regex). -/
def isoDateCompact (isoDate : String) : String :=
  String.mk ((isoDate.data.take 10).filter (fun c => c ≠ '-'))

/-- The generated order id (`route.ts` line 137). -/
def mkOrderId (isoDate : String) (digits : List Nat) : String :=
  "ORD-" ++ isoDateCompact isoDate ++ "-" ++ randSuffix digits 6

/-- The generated payment reference (`route.ts` line 140). -/
def mkPaymentRef (nowMs : Nat) (digits : List Nat) : String :=
  "PAY-" ++ toString nowMs ++ "-" ++ randSuffix digits 9

/-! ## Booking creation handler (`src/app/api/booking/create/route.ts`) -/

/-- The JSON body of a booking-creation request.  String fields are
`Option String` so that absent fields are representable; the numeric
fields are forwarded verbatim into the booking row. -/
structure BookingRequest where
  car_id : Option String
  pickup_date : Option String
  return_date : Option String
  full_name : Option String
  phone_number : Option String
  email : Option String
  pickup_location : Option String
  days : Int
  daily_rate : Int
  total_amount : Int
  sessionId : Option String
  deriving Repr, DecidableEq

/-- The possible JSON responses of the booking-creation handler. -/
inductive CreateResp where
  | missingFields
  | failedCreateUser (msg : String)
  | noUserData
  | carNotFound
  | bookingFailed
  | success (booking_id : Nat) (order_id : String) (payment_reference : String)
  deriving Repr, DecidableEq

/-- The HTTP status code attached to each response. -/
def CreateResp.statusCode : CreateResp → Nat
  | .missingFields => 400
  | .failedCreateUser _ => 500
  | .noUserData => 500
  | .carNotFound => 404
  | .bookingFailed => 500
  | .success _ _ _ => 200

/-- The `error` field of the response body, when the response is an
error. -/
def CreateResp.errorBody : CreateResp → Option String
  | .missingFields => some "Missing required fields"
  | .failedCreateUser msg => some ("Failed to create user: " ++ msg)
  | .noUserData => some "Failed to create user: No user data returned"
  | .carNotFound => some "Car not found"
  | .bookingFailed => some "Failed to create booking"
  | .success _ _ _ => none

/-- Outcome of the `users` insert (`route.ts` lines 76-85): success
returning the new row, a database error carrying a code and message, or
the degenerate no-data outcome (`else if (!newUser)`). -/
inductive UserInsertOutcome where
  | ok
  | err (code : String) (msg : String)
  | okNoData
  deriving Repr, DecidableEq

/-- Fault oracle for the independently fallible statements of the
booking-creation handler. -/
structure Faults where
  userInsert : UserInsertOutcome
  bookingInsertErr : Bool
  paymentInsertErr : Bool
  deriving Repr, DecidableEq

/-- Required-field validation (`route.ts` line 22): JS
`!car_id || !pickup_date || !return_date || !full_name ||
!phone_number || !pickup_location`. -/
def requiredMissing (req : BookingRequest) : Bool :=
  !truthy req.car_id || !truthy req.pickup_date || !truthy req.return_date ||
    !truthy req.full_name || !truthy req.phone_number || !truthy req.pickup_location

/-- The user-info patch applied when the user was found by
`whatsapp_id` (`route.ts` lines 46-53): each field is updated only when
the corresponding request field is truthy (`|| undefined` skips the
column). -/
def patchUserByWhatsapp (req : BookingRequest) (u : UserRow) : UserRow :=
  { u with
    name := if truthy req.full_name then req.full_name.getD u.name else u.name
    email := if truthy req.email then req.email else u.email
    phone := if truthy req.phone_number then req.phone_number.getD u.phone else u.phone }

/-- The user-info patch applied when the user was found by phone
(`route.ts` lines 66-73): also overwrites `whatsapp_id`
unconditionally. -/
def patchUserByPhone (req : BookingRequest) (whatsappId : String) (u : UserRow) : UserRow :=
  { u with
    name := if truthy req.full_name then req.full_name.getD u.name else u.name
    email := if truthy req.email then req.email else u.email
    whatsapp_id := whatsappId }

/-- Update every `users` row whose `id` matches. -/
def updateUsers (db : Db) (userId : Nat) (f : UserRow → UserRow) : Db :=
  { db with users := db.users.map (fun u => if u.id = userId then f u else u) }

/-- `const whatsappId = sessionId || phone_number` (`route.ts` line
33). -/
def whatsappIdOf (req : BookingRequest) : String :=
  jsOr req.sessionId (req.phone_number.getD "")

/-- The `users` lookup by `whatsapp_id` (`route.ts` lines 36-40). -/
def userByWhatsapp (db : Db) (req : BookingRequest) : Option UserRow :=
  singleRow (db.users.filter (fun u => u.whatsapp_id == whatsappIdOf req))

/-- The `users` lookup by `phone` (`route.ts` lines 57-61). -/
def userByPhone (db : Db) (req : BookingRequest) : Option UserRow :=
  singleRow (db.users.filter (fun u => u.phone == req.phone_number.getD ""))

/-- The row inserted by the `users` insert (`route.ts` lines
76-85). -/
def newUserRow (db : Db) (req : BookingRequest) : UserRow :=
  { id := db.nextUserId
    whatsapp_id := whatsappIdOf req
    phone := req.phone_number.getD ""
    name := req.full_name.getD ""
    email := if truthy req.email then req.email else none }

/-- The create-new-user branch (`route.ts` lines 75-119), including the
uniqueness-conflict recovery: on error code `23505` or a message
containing `duplicate`, re-read by `whatsapp_id` instead of failing. -/
def createUser (db : Db) (req : BookingRequest) (faults : Faults) :
    Except CreateResp (Nat × Db) :=
  match faults.userInsert with
  | .ok =>
    .ok (db.nextUserId,
      { db with users := db.users ++ [newUserRow db req], nextUserId := db.nextUserId + 1 })
  | .err code msg =>
    if code == "23505" || strIncludes msg "duplicate" then
      match userByWhatsapp db req with
      | some u => .ok (u.id, db)
      | none => .error (.failedCreateUser msg)
    else
      .error (.failedCreateUser msg)
  | .okNoData => .error .noUserData

/-- Find-or-create user (`route.ts` lines 29-120).  Returns the error
response, or the resolved user id together with the store after the
user-side writes. -/
def resolveUser (db : Db) (req : BookingRequest) (faults : Faults) :
    Except CreateResp (Nat × Db) :=
  match userByWhatsapp db req with
  | some u =>
    -- found by whatsapp_id: patch contact fields if any provided
    if truthy req.full_name || truthy req.email || truthy req.phone_number then
      .ok (u.id, updateUsers db u.id (patchUserByWhatsapp req))
    else
      .ok (u.id, db)
  | none =>
    match userByPhone db req with
    | some u =>
      -- found by phone: patch contact fields and attach whatsapp_id
      .ok (u.id, updateUsers db u.id (patchUserByPhone req (whatsappIdOf req)))
    | none =>
      createUser db req faults

/-- The booking row inserted at `route.ts` lines 143-162. -/
def mkBookingRow (req : BookingRequest) (bookingId userId carRowId : Nat)
    (orderId paymentReference : String) : BookingRow :=
  { id := bookingId
    order_id := orderId
    user_id := userId
    car_id := carRowId
    pickup_date := req.pickup_date.getD ""
    return_date := req.return_date.getD ""
    pickup_location := req.pickup_location.getD ""
    days := req.days
    daily_rate := req.daily_rate
    total_amount := req.total_amount
    deposit_amount := req.total_amount
    balance_amount := 0
    status := "paid"
    payment_status := "paid"
    payment_reference := paymentReference }

/-- The payment row inserted at `route.ts` lines 173-185. -/
def mkPaymentRow (req : BookingRequest) (orderId paymentReference nowIso : String) :
    PaymentRow :=
  { order_id := orderId
    payment_reference := paymentReference
    amount := req.total_amount
    currency := "GHS"
    status := "success"
    provider := "manual"
    provider_reference := paymentReference
    paid_at := some nowIso
    metadata_sessionId := req.sessionId }

/-- The session patch issued at `route.ts` lines 193-207 when a
session id was supplied. -/
def patchSession (db : Db) (sessionId orderId paymentReference nowIso : String)
    (bookingId : Nat) : Db :=
  { db with
    sessions := db.sessions.map (fun s =>
      if s.whatsapp_id == sessionId then
        { s with
          session_state := "BOOKED"
          session_data := some
            { booking_completed := true
              payment_reference := paymentReference
              order_id := orderId
              booking_id := some bookingId }
          last_message_at := nowIso }
      else s) }

/-- The `cars` lookup by catalog id (`route.ts` lines 122-127): exact
match on `car_id`, no condition on the car's lifecycle status. -/
def carByCatalogId (db : Db) (req : BookingRequest) : Option CarRow :=
  singleRow (db.cars.filter (fun c => c.car_id == req.car_id.getD ""))

/-- The `bookings` insert (`route.ts` lines 143-162). -/
def insertBooking (db : Db) (req : BookingRequest) (userId carRowId : Nat)
    (orderId paymentReference : String) : Db :=
  { db with
    bookings := db.bookings ++
      [mkBookingRow req db.nextBookingId userId carRowId orderId paymentReference]
    nextBookingId := db.nextBookingId + 1 }

/-- The `payments` insert (`route.ts` lines 172-190): a failure here is
logged only, never surfaced. -/
def insertPaymentStep (db : Db) (req : BookingRequest)
    (orderId paymentReference nowIso : String) (faults : Faults) : Db :=
  if faults.paymentInsertErr then db
  else { db with payments := db.payments ++ [mkPaymentRow req orderId paymentReference nowIso] }

/-- The session patch (`route.ts` lines 192-207), issued only when a
session id was supplied. -/
def sessionStep (db : Db) (req : BookingRequest)
    (orderId paymentReference nowIso : String) (bookingId : Nat) : Db :=
  if truthy req.sessionId then
    patchSession db (req.sessionId.getD "") orderId paymentReference nowIso bookingId
  else db

/-- `POST /api/booking/create` (`route.ts` lines 4-222).  `isoDate` and
`nowMs`/`nowIso` are the request-time clock readings; `ordDigits` and
`payDigits` are the base-36 fraction digits of the two
`Math.random()` draws. -/
def bookingCreatePOST (db : Db) (req : BookingRequest) (faults : Faults)
    (isoDate : String) (nowMs : Nat) (nowIso : String)
    (ordDigits payDigits : List Nat) : CreateResp × Db :=
  if requiredMissing req then
    (.missingFields, db)
  else
    match resolveUser db req faults with
    | .error resp => (resp, db)
    | .ok (userId, db1) =>
      match carByCatalogId db1 req with
      | none => (.carNotFound, db1)
      | some carData =>
        if faults.bookingInsertErr then
          (.bookingFailed, db1)
        else
          (.success db1.nextBookingId (mkOrderId isoDate ordDigits)
              (mkPaymentRef nowMs payDigits),
            sessionStep
              (insertPaymentStep
                (insertBooking db1 req userId carData.id (mkOrderId isoDate ordDigits)
                  (mkPaymentRef nowMs payDigits))
                req (mkOrderId isoDate ordDigits) (mkPaymentRef nowMs payDigits) nowIso faults)
              req (mkOrderId isoDate ordDigits) (mkPaymentRef nowMs payDigits) nowIso
              db1.nextBookingId)

/-! ## Booking wizard pricing (`calculateBookingDetails`, booking page)

The two date inputs are `YYYY-MM-DD` strings, parsed by `new Date` to
UTC-midnight timestamps; the computation below works on those epoch
timestamps in milliseconds (`Int`, since dates before 1970 are
representable). -/

/-- `1000 * 60 * 60 * 24`. -/
def msPerDay : Nat := 86400000

/-- `Math.ceil(diffTime / (1000 * 60 * 60 * 24)) || 1` where
`diffTime = Math.abs(returnDate.getTime() - pickup.getTime())`. -/
def calcDays (pickupMs returnMs : Int) : Nat :=
  let diffTime := (returnMs - pickupMs).natAbs
  let d := (diffTime + (msPerDay - 1)) / msPerDay
  if d = 0 then 1 else d

/-- `calculateBookingDetails` (booking page, lines 110-127): the day
count and `totalAmount = diffDays * dailyRate`. -/
def calculateBookingDetails (pickupMs returnMs : Int) (dailyRate : Int) : Nat × Int :=
  let days := calcDays pickupMs returnMs
  (days, (days : Int) * dailyRate)

/-! ## Payment webhook handler (`src/app/api/paystack/webhook/route.ts`) -/

/-- One entry of `metadata.custom_fields`. -/
structure CustomField where
  variable_name : String
  value : Option String
  deriving Repr, DecidableEq

/-- The `metadata` object of a Paystack event. -/
structure EventMetadata where
  sessionId : Option String
  custom_fields : Option (List CustomField)
  deriving Repr, DecidableEq

/-- The `data` object of a Paystack event (the fields the handler
reads). -/
structure EventData where
  reference : String
  metadata : Option EventMetadata
  deriving Repr, DecidableEq

/-- A parsed Paystack webhook event. -/
structure PaystackEvent where
  event : String
  data : EventData
  deriving Repr, DecidableEq

/-- `metadata?.sessionId || metadata?.custom_fields?.find(f =>
f.variable_name === 'sessionId')?.value` (webhook `route.ts` line
39). -/
def extractSessionId (metadata : Option EventMetadata) : Option String :=
  match metadata with
  | none => none
  | some m =>
    if truthy m.sessionId then m.sessionId
    else
      match m.custom_fields with
      | none => none
      | some fs =>
        match fs.find? (fun f => f.variable_name == "sessionId") with
        | none => none
        | some f => f.value

/-- The possible JSON responses of the webhook handler. -/
inductive WebhookResp where
  | noSignature
  | invalidSignature
  | received
  | internalError
  deriving Repr, DecidableEq

/-- The HTTP status code attached to each webhook response. -/
def WebhookResp.statusCode : WebhookResp → Nat
  | .noSignature => 400
  | .invalidSignature => 401
  | .received => 200
  | .internalError => 500

/-- The database tables the webhook handler writes to; the handler's
run is traced as the list of write statements it issues. -/
inductive WriteOp where
  | paymentsWrite
  | bookingsWrite
  | sessionsWrite
  deriving Repr, DecidableEq

/-- Fault oracle for the webhook handler's three independent updates
(each failure is logged and skipped, never surfaced). -/
structure WebhookFaults where
  updatePaymentErr : Bool
  updateBookingErr : Bool
  updateSessionErr : Bool
  deriving Repr, DecidableEq

/-- `POST /api/paystack/webhook` (webhook `route.ts` lines 7-111).

`hmacSha512Hex` abstracts `crypto.createHmac('sha512',
secret).update(body).digest('hex')`: the handler is parametric in the
HMAC function and only compares its output against the header.
`parseEvent` abstracts `JSON.parse` plus the destructuring of
`event.data`; `none` models a parse failure, which the `catch` turns
into a 500.  Returns the response, the store after the run, and the
trace of write statements issued. -/
def webhookPOST (hmacSha512Hex : String → String → String) (secret : String)
    (parseEvent : String → Option PaystackEvent)
    (db : Db) (body : String) (signature : Option String)
    (faults : WebhookFaults) (nowIso : String) :
    WebhookResp × Db × List WriteOp :=
  match signature with
  | none => (.noSignature, db, [])
  | some sig =>
    let hash := hmacSha512Hex secret body
    if hash ≠ sig then
      (.invalidSignature, db, [])
    else
      match parseEvent body with
      | none => (.internalError, db, [])
      | some event =>
        if event.event == "charge.success" then
          let reference := event.data.reference
          let sessionId := extractSessionId event.data.metadata
          match singleRow (db.payments.filter
              (fun p => p.payment_reference == reference)) with
          | none =>
            -- payment might not exist yet: acknowledge receipt
            (.received, db, [])
          | some payment =>
            -- update payment status (failure logged, not surfaced)
            let db1 :=
              if faults.updatePaymentErr then db
              else { db with
                payments := db.payments.map (fun p =>
                  if p.payment_reference == reference then
                    { p with status := "success", paid_at := some nowIso }
                  else p) }
            -- update booking status (failure logged, not surfaced)
            let db2 :=
              if faults.updateBookingErr then db1
              else { db1 with
                bookings := db1.bookings.map (fun b =>
                  if b.order_id == payment.order_id then
                    { b with status := "paid", payment_status := "paid" }
                  else b) }
            -- update session if a session id was found
            if truthy sessionId then
              let db3 :=
                if faults.updateSessionErr then db2
                else { db2 with
                  sessions := db2.sessions.map (fun s =>
                    if s.whatsapp_id == sessionId.getD "" then
                      { s with
                        session_data := some
                          { booking_completed := true
                            payment_reference := reference
                            order_id := payment.order_id
                            booking_id := none }
                        last_message_at := nowIso }
                    else s) }
              (.received, db3, [.paymentsWrite, .bookingsWrite, .sessionsWrite])
            else
              (.received, db2, [.paymentsWrite, .bookingsWrite])
        else
          (.received, db, [])

/-- The `error` field of the webhook response body, when the response
is an error (`{received: true}` carries none). -/
def WebhookResp.errorBody : WebhookResp → Option String
  | .noSignature => some "No signature provided"
  | .invalidSignature => some "Invalid signature"
  | .received => none
  | .internalError => some "Internal server error"

/-- An uppercase base-36 character: a decimal digit or an uppercase
letter. -/
def isUpperBase36 (c : Char) : Bool :=
  (decide ('0' ≤ c) && decide (c ≤ '9')) || (decide ('A' ≤ c) && decide (c ≤ 'Z'))

/-- Modelled from the spec's words: the wizard's day count is "the
ceiling of the calendar-day difference, with a minimum of 1".  Used
only to compare the spec's description against
`calculateBookingDetails`. -/
def specWizardDays (pickupMs returnMs : Int) : Nat :=
  max 1 (((returnMs - pickupMs).natAbs + (msPerDay - 1)) / msPerDay)

/-! ## Concrete fixtures for witnesses and counterexamples -/

def exCar : CarRow :=
  { id := 1, car_id := "CAR-001", status := "active", daily_rate := 200 }

def exInactiveCar : CarRow :=
  { id := 2, car_id := "CAR-002", status := "inactive", daily_rate := 300 }

def exDb : Db :=
  { users := [], cars := [exCar, exInactiveCar], bookings := [], payments := [],
    sessions := [], nextUserId := 1, nextBookingId := 1 }

def exNoFaults : Faults :=
  { userInsert := .ok, bookingInsertErr := false, paymentInsertErr := false }

def exWebNoFaults : WebhookFaults :=
  { updatePaymentErr := false, updateBookingErr := false, updateSessionErr := false }

/-- A request whose submitted `total_amount` (999) disagrees with
`days * daily_rate` (2 * 200 = 400): the handler accepts it
unchanged. -/
def exReqInconsistent : BookingRequest :=
  { car_id := some "CAR-001", pickup_date := some "2024-01-01",
    return_date := some "2024-01-03", full_name := some "Ama Mensah",
    phone_number := some "233241234567", email := none,
    pickup_location := some "Airport", days := 2, daily_rate := 200,
    total_amount := 999, sessionId := some "wa-1" }

/-- A well-formed request targeting the inactive car `CAR-002`. -/
def exReqInactiveCar : BookingRequest :=
  { car_id := some "CAR-002", pickup_date := some "2024-01-01",
    return_date := some "2024-01-03", full_name := some "Ama Mensah",
    phone_number := some "233241234567", email := none,
    pickup_location := some "Airport", days := 2, daily_rate := 300,
    total_amount := 600, sessionId := some "wa-1" }

/-- A well-formed, price-consistent request for `CAR-001`. -/
def exReqOk : BookingRequest :=
  { car_id := some "CAR-001", pickup_date := some "2024-01-01",
    return_date := some "2024-01-03", full_name := some "Ama Mensah",
    phone_number := some "233241234567", email := none,
    pickup_location := some "Airport", days := 2, daily_rate := 200,
    total_amount := 400, sessionId := some "wa-1" }

/-- A user row with a phone matching `exReqOk` but a different
`whatsapp_id`. -/
def exPhoneUser : UserRow :=
  { id := 7, whatsapp_id := "old-wa", phone := "233241234567",
    name := "Ama", email := none }

/-- `exDb` with `exPhoneUser` present. -/
def exDbPhone : Db :=
  { exDb with users := [exPhoneUser], nextUserId := 8 }

/-- A concrete stand-in HMAC function for witnesses (the handler is
parametric in the HMAC; only equality with the header matters). -/
def exHmac : String → String → String :=
  fun secret body => "hmac(" ++ secret ++ "," ++ body ++ ")"

/-- A concrete parse function mapping the one body used in witnesses to
a parsed event. -/
def exParse (ev : PaystackEvent) : String → Option PaystackEvent :=
  fun body => if body == "body0" then some ev else none

/-- A concrete `charge.success` event whose reference matches no
payment row of `exDb`. -/
def exEventUnknownRef : PaystackEvent :=
  { event := "charge.success",
    data := { reference := "PAY-000-NOPE", metadata := none } }

/-- A concrete non-`charge.success` event. -/
def exEventOther : PaystackEvent :=
  { event := "charge.failed",
    data := { reference := "PAY-000-NOPE", metadata := none } }

/-- `exReqOk` with the required `pickup_location` field absent. -/
def exReqNoLocation : BookingRequest := { exReqOk with pickup_location := none }

/-- `exReqOk` pointing at a catalog id with no car row. -/
def exReqUnknownCar : BookingRequest := { exReqOk with car_id := some "CAR-999" }

/-- Faults making the `bookings` insert fail. -/
def exFaultsBooking : Faults :=
  { userInsert := .ok, bookingInsertErr := true, paymentInsertErr := false }

/-- Faults making only the `payments` insert fail. -/
def exFaultsPayment : Faults :=
  { userInsert := .ok, bookingInsertErr := false, paymentInsertErr := true }

/-- `exDb` after the new-user insert performed for `exReqOk`. -/
def exDbAfterUser : Db :=
  { exDb with
    users := [{ id := 1, whatsapp_id := "wa-1", phone := "233241234567",
                name := "Ama Mensah", email := none }]
    nextUserId := 2 }

/-! ## Helper lemmas -/

theorem singleRow_mem {α : Type} {l : List α} {x : α} (h : singleRow l = some x) :
    x ∈ l := by
  unfold singleRow at h
  split at h
  · injection h with h'
    subst h'
    exact List.mem_singleton_self _
  · cases h

theorem createUser_frame {db : Db} {req : BookingRequest} {faults : Faults}
    {uid : Nat} {db1 : Db} (h : createUser db req faults = .ok (uid, db1)) :
    db1.cars = db.cars ∧ db1.bookings = db.bookings ∧
      db1.payments = db.payments ∧ db1.sessions = db.sessions ∧
      db1.nextBookingId = db.nextBookingId := by
  unfold createUser at h
  split at h
  · simp only [Except.ok.injEq, Prod.mk.injEq] at h
    obtain ⟨-, rfl⟩ := h
    exact ⟨rfl, rfl, rfl, rfl, rfl⟩
  · split at h
    · split at h
      · simp only [Except.ok.injEq, Prod.mk.injEq] at h
        obtain ⟨-, rfl⟩ := h
        exact ⟨rfl, rfl, rfl, rfl, rfl⟩
      · simp at h
    · simp at h
  · simp at h

theorem resolveUser_frame {db : Db} {req : BookingRequest} {faults : Faults}
    {uid : Nat} {db1 : Db} (h : resolveUser db req faults = .ok (uid, db1)) :
    db1.cars = db.cars ∧ db1.bookings = db.bookings ∧
      db1.payments = db.payments ∧ db1.sessions = db.sessions ∧
      db1.nextBookingId = db.nextBookingId := by
  unfold resolveUser at h
  split at h
  · split at h <;>
      (simp only [Except.ok.injEq, Prod.mk.injEq] at h; obtain ⟨-, rfl⟩ := h;
       exact ⟨rfl, rfl, rfl, rfl, rfl⟩)
  · split at h
    · simp only [Except.ok.injEq, Prod.mk.injEq] at h
      obtain ⟨-, rfl⟩ := h
      exact ⟨rfl, rfl, rfl, rfl, rfl⟩
    · exact createUser_frame h

theorem createUser_error_shape {db : Db} {req : BookingRequest} {faults : Faults}
    {e : CreateResp} (h : createUser db req faults = .error e) :
    (∃ msg, e = .failedCreateUser msg) ∨ e = .noUserData := by
  unfold createUser at h
  split at h
  · simp at h
  · split at h
    · split at h
      · simp at h
      · injection h with h'; subst h'; exact .inl ⟨_, rfl⟩
    · injection h with h'; subst h'; exact .inl ⟨_, rfl⟩
  · injection h with h'; subst h'; exact .inr rfl

theorem resolveUser_error_shape {db : Db} {req : BookingRequest} {faults : Faults}
    {e : CreateResp} (h : resolveUser db req faults = .error e) :
    (∃ msg, e = .failedCreateUser msg) ∨ e = .noUserData := by
  unfold resolveUser at h
  split at h
  · split at h <;> simp at h
  · split at h
    · simp at h
    · exact createUser_error_shape h

theorem bookingCreatePOST_success_inv
    {db db' : Db} {req : BookingRequest} {faults : Faults}
    {isoDate nowIso : String} {nowMs : Nat} {ordDigits payDigits : List Nat}
    {bid : Nat} {oid pref : String}
    (h : bookingCreatePOST db req faults isoDate nowMs nowIso ordDigits payDigits
        = (.success bid oid pref, db')) :
    requiredMissing req = false ∧
    ∃ userId db1 carData,
      resolveUser db req faults = .ok (userId, db1) ∧
      carByCatalogId db1 req = some carData ∧
      faults.bookingInsertErr = false ∧
      bid = db1.nextBookingId ∧
      oid = mkOrderId isoDate ordDigits ∧
      pref = mkPaymentRef nowMs payDigits ∧
      db'.bookings = db1.bookings ++
        [mkBookingRow req db1.nextBookingId userId carData.id oid pref] := by
  unfold bookingCreatePOST at h
  split at h
  · simp at h
  next hmiss =>
    refine ⟨by simpa using hmiss, ?_⟩
    split at h
    next resp heq =>
      rcases resolveUser_error_shape heq with ⟨msg, rfl⟩ | rfl <;> simp at h
    next userId db1 heq =>
      split at h
      · simp at h
      next carData hcar =>
        split at h
        · simp at h
        next hbk =>
          simp only [Prod.mk.injEq, CreateResp.success.injEq] at h
          obtain ⟨⟨hbid, hoid, hpref⟩, hdb⟩ := h
          subst hbid; subst hoid; subst hpref
          refine ⟨userId, db1, carData, heq, hcar, by simpa using hbk, rfl, rfl, rfl, ?_⟩
          subst hdb
          unfold sessionStep
          split
          · unfold patchSession insertPaymentStep insertBooking
            split <;> rfl
          · unfold insertPaymentStep insertBooking
            split <;> rfl

theorem bookingCreatePOST_carNotFound
    {db db1 : Db} {req : BookingRequest} {faults : Faults} {userId : Nat}
    (isoDate : String) (nowMs : Nat) (nowIso : String) (ordDigits payDigits : List Nat)
    (hmiss : requiredMissing req = false)
    (huser : resolveUser db req faults = .ok (userId, db1))
    (hcar : carByCatalogId db1 req = none) :
    bookingCreatePOST db req faults isoDate nowMs nowIso ordDigits payDigits
      = (.carNotFound, db1) := by
  simp [bookingCreatePOST, hmiss, huser, hcar]

theorem bookingCreatePOST_bookingFailed
    {db db1 : Db} {req : BookingRequest} {faults : Faults} {userId : Nat}
    {carData : CarRow}
    (isoDate : String) (nowMs : Nat) (nowIso : String) (ordDigits payDigits : List Nat)
    (hmiss : requiredMissing req = false)
    (huser : resolveUser db req faults = .ok (userId, db1))
    (hcar : carByCatalogId db1 req = some carData)
    (hbk : faults.bookingInsertErr = true) :
    bookingCreatePOST db req faults isoDate nowMs nowIso ordDigits payDigits
      = (.bookingFailed, db1) := by
  simp [bookingCreatePOST, hmiss, huser, hcar, hbk]

theorem bookingCreatePOST_success_run
    {db db1 : Db} {req : BookingRequest} {faults : Faults} {userId : Nat}
    {carData : CarRow}
    (isoDate : String) (nowMs : Nat) (nowIso : String) (ordDigits payDigits : List Nat)
    (hmiss : requiredMissing req = false)
    (huser : resolveUser db req faults = .ok (userId, db1))
    (hcar : carByCatalogId db1 req = some carData)
    (hbk : faults.bookingInsertErr = false) :
    bookingCreatePOST db req faults isoDate nowMs nowIso ordDigits payDigits
      = (.success db1.nextBookingId (mkOrderId isoDate ordDigits) (mkPaymentRef nowMs payDigits),
        sessionStep
          (insertPaymentStep
            (insertBooking db1 req userId carData.id (mkOrderId isoDate ordDigits)
              (mkPaymentRef nowMs payDigits))
            req (mkOrderId isoDate ordDigits) (mkPaymentRef nowMs payDigits) nowIso faults)
          req (mkOrderId isoDate ordDigits) (mkPaymentRef nowMs payDigits) nowIso
          db1.nextBookingId) := by
  simp [bookingCreatePOST, hmiss, huser, hcar, hbk]

theorem sessionStep_bookings (db : Db) (req : BookingRequest)
    (orderId paymentReference nowIso : String) (bookingId : Nat) :
    (sessionStep db req orderId paymentReference nowIso bookingId).bookings = db.bookings := by
  unfold sessionStep patchSession
  split <;> rfl

theorem insertPaymentStep_bookings (db : Db) (req : BookingRequest)
    (orderId paymentReference nowIso : String) (faults : Faults) :
    (insertPaymentStep db req orderId paymentReference nowIso faults).bookings = db.bookings := by
  unfold insertPaymentStep
  split <;> rfl


/-- Every base-36 digit below 36 upcases to a decimal digit or an
uppercase letter. -/
theorem base36Char_upper (d : Nat) (hd : d < 36) :
    isUpperBase36 (base36Char d).toUpper = true := by
  interval_cases d <;> decide

/-- The suffix keeps `min n digits.length` characters. -/
theorem randSuffix_length (digits : List Nat) (n : Nat) :
    (randSuffix digits n).length = min n digits.length := by
  simp [randSuffix, String.length]

/-! ## Claim theorems -/

/-- C1 (amended): for every accepted booking-creation request, the stored
Booking row carries the submitted `total_amount` verbatim (and the
submitted `days` and `daily_rate`); it equals `days * daily_rate` only
when the client submitted a consistent triple — the handler performs no
recomputation. -/
theorem booking_total_stored_verbatim
    (db db' : Db) (req : BookingRequest) (faults : Faults)
    (isoDate : String) (nowMs : Nat) (nowIso : String) (ordDigits payDigits : List Nat)
    (bid : Nat) (oid pref : String)
    (h : bookingCreatePOST db req faults isoDate nowMs nowIso ordDigits payDigits
        = (.success bid oid pref, db')) :
    ∃ b : BookingRow, db'.bookings = db.bookings ++ [b] ∧
      b.total_amount = req.total_amount ∧ b.days = req.days ∧
      b.daily_rate = req.daily_rate ∧ b.deposit_amount = req.total_amount ∧
      b.order_id = oid ∧ b.payment_reference = pref := by
  obtain ⟨-, userId, db1, carData, huser, hcar, -, hbid, hoid, hpref, hbooks⟩ :=
    bookingCreatePOST_success_inv h
  obtain ⟨-, hb1, -, -, -⟩ := resolveUser_frame huser
  exact ⟨mkBookingRow req db1.nextBookingId userId carData.id oid pref,
    by rw [hbooks, hb1], rfl, rfl, rfl, rfl, rfl, rfl⟩

/-- C1 counterexample: a request submitting `days = 2`,
`daily_rate = 200` but `total_amount = 999` is accepted, and the stored
Booking row has `total_amount = 999 ≠ 2 * 200`. -/
theorem booking_total_not_recomputed_cex :
    (bookingCreatePOST exDb exReqInconsistent exNoFaults "2024-06-01T00:00:00.000Z"
        1717200000000 "t" [0,1,2,3,4,5] [0,1,2,3,4,5,6,7,8]).1
      = .success 1 "ORD-20240601-012345" "PAY-1717200000000-012345678" ∧
    ((bookingCreatePOST exDb exReqInconsistent exNoFaults "2024-06-01T00:00:00.000Z"
        1717200000000 "t" [0,1,2,3,4,5] [0,1,2,3,4,5,6,7,8]).2.bookings.map
      (fun b => b.total_amount)) = [999] ∧
    exReqInconsistent.days * exReqInconsistent.daily_rate = 400 ∧
    ¬((999 : Int) = 400) := by decide

/-- Witness for C1: the amended theorem applied to a concrete accepted
request. -/
theorem booking_total_stored_verbatim_witness :
    ∃ b : BookingRow,
      (bookingCreatePOST exDb exReqInconsistent exNoFaults "2024-06-01T00:00:00.000Z"
          1717200000000 "t" [0,1,2,3,4,5] [0,1,2,3,4,5,6,7,8]).2.bookings
        = exDb.bookings ++ [b] ∧
      b.total_amount = exReqInconsistent.total_amount ∧
      b.days = exReqInconsistent.days ∧
      b.daily_rate = exReqInconsistent.daily_rate ∧
      b.deposit_amount = exReqInconsistent.total_amount ∧
      b.order_id = "ORD-20240601-012345" ∧
      b.payment_reference = "PAY-1717200000000-012345678" :=
  booking_total_stored_verbatim exDb _ exReqInconsistent exNoFaults
    "2024-06-01T00:00:00.000Z" 1717200000000 "t" [0,1,2,3,4,5] [0,1,2,3,4,5,6,7,8]
    1 "ORD-20240601-012345" "PAY-1717200000000-012345678" (by decide)

/-- C2: when the external-session-id lookup finds no user but the phone
lookup matches exactly one user with a different external-session id,
the resolved identity is that phone-matched user, and its `whatsapp_id`
is overwritten with the request's session id. -/
theorem phone_fallback_adopts_user
    (db : Db) (req : BookingRequest) (faults : Faults) (u : UserRow) (sid : String)
    (hsid : req.sessionId = some sid) (hne : sid.isEmpty = false)
    (hwa : db.users.filter (fun v => v.whatsapp_id == whatsappIdOf req) = [])
    (hph : db.users.filter (fun v => v.phone == req.phone_number.getD "") = [u])
    (_hdiff : u.whatsapp_id ≠ sid) :
    ∃ db1, resolveUser db req faults = .ok (u.id, db1) ∧
      (∀ v ∈ db1.users, v.id = u.id → v.whatsapp_id = sid) ∧
      whatsappIdOf req = sid := by
  have hwid : whatsappIdOf req = sid := by simp [whatsappIdOf, jsOr, hsid, hne]
  refine ⟨updateUsers db u.id (patchUserByPhone req (whatsappIdOf req)), ?_, ?_, hwid⟩
  · unfold resolveUser userByWhatsapp userByPhone
    rw [hwa, hph]
    rfl
  · intro v hv hvid
    unfold updateUsers at hv
    simp only [List.mem_map] at hv
    obtain ⟨w, hw, hveq⟩ := hv
    by_cases hcase : w.id = u.id
    · rw [if_pos hcase] at hveq
      rw [← hveq]
      simpa [patchUserByPhone] using hwid
    · rw [if_neg hcase] at hveq
      subst hveq
      exact absurd hvid hcase

/-- Witness for C2: `exPhoneUser` (phone `233241234567`, session id
`old-wa`) is adopted by a request carrying session id `wa-1`, and its
`whatsapp_id` becomes `wa-1`. -/
theorem phone_fallback_adopts_user_witness :
    ∃ db1, resolveUser exDbPhone exReqOk exNoFaults = .ok (exPhoneUser.id, db1) ∧
      (∀ v ∈ db1.users, v.id = exPhoneUser.id → v.whatsapp_id = "wa-1") ∧
      whatsappIdOf exReqOk = "wa-1" :=
  phone_fallback_adopts_user exDbPhone exReqOk exNoFaults exPhoneUser "wa-1"
    (by decide) (by decide) (by decide) (by decide) (by decide)

/-- C3 (amended): a webhook request with a missing
`x-paystack-signature` header is rejected with 400 (`No signature
provided`), and one whose header differs from the HMAC of the raw body
is rejected with 401 (`Invalid signature`); in both cases the event is
not processed (no write is issued and the store is unchanged). -/
theorem webhook_signature_rejection
    (hmac : String → String → String) (secret : String)
    (parseEvent : String → Option PaystackEvent)
    (db : Db) (body : String) (faults : WebhookFaults) (nowIso : String) :
    (webhookPOST hmac secret parseEvent db body none faults nowIso
        = (.noSignature, db, []) ∧
      WebhookResp.noSignature.statusCode = 400 ∧
      WebhookResp.noSignature.errorBody = some "No signature provided") ∧
    (∀ sig, hmac secret body ≠ sig →
      webhookPOST hmac secret parseEvent db body (some sig) faults nowIso
        = (.invalidSignature, db, []) ∧
      WebhookResp.invalidSignature.statusCode = 401 ∧
      WebhookResp.invalidSignature.errorBody = some "Invalid signature") := by
  refine ⟨⟨rfl, rfl, rfl⟩, fun sig hne => ⟨?_, rfl, rfl⟩⟩
  simp [webhookPOST, hne]

/-- C3 counterexample: with the signature header missing the handler
responds 400, not 401 as the claim states. -/
theorem webhook_missing_signature_cex :
    (webhookPOST exHmac "secret" (exParse exEventOther) exDb "body0" none
        exWebNoFaults "now").1 = .noSignature ∧
    (webhookPOST exHmac "secret" (exParse exEventOther) exDb "body0" none
        exWebNoFaults "now").1.statusCode = 400 ∧
    ¬((webhookPOST exHmac "secret" (exParse exEventOther) exDb "body0" none
        exWebNoFaults "now").1.statusCode = 401) := by decide

/-- Witness for C3: the amended theorem at a concrete missing-header
request and a concrete mismatched-signature request. -/
theorem webhook_signature_rejection_witness :
    (webhookPOST exHmac "secret" (exParse exEventOther) exDb "body0" none exWebNoFaults "now"
        = (.noSignature, exDb, []) ∧
      WebhookResp.noSignature.statusCode = 400 ∧
      WebhookResp.noSignature.errorBody = some "No signature provided") ∧
    (webhookPOST exHmac "secret" (exParse exEventOther) exDb "body0" (some "bad")
        exWebNoFaults "now"
        = (.invalidSignature, exDb, []) ∧
      WebhookResp.invalidSignature.statusCode = 401 ∧
      WebhookResp.invalidSignature.errorBody = some "Invalid signature") :=
  ⟨(webhook_signature_rejection exHmac "secret" (exParse exEventOther) exDb "body0"
      exWebNoFaults "now").1,
   (webhook_signature_rejection exHmac "secret" (exParse exEventOther) exDb "body0"
      exWebNoFaults "now").2 "bad" (by decide)⟩

/-- C4: a correctly signed `charge.success` webhook whose payment
reference matches no stored Payment row is acknowledged with 200
`{received: true}`, with no error and no write. -/
theorem webhook_unknown_reference_ack
    (hmac : String → String → String) (secret : String)
    (parseEvent : String → Option PaystackEvent) (db : Db) (body : String)
    (faults : WebhookFaults) (nowIso : String) (ev : PaystackEvent)
    (hparse : parseEvent body = some ev)
    (hev : ev.event = "charge.success")
    (href : db.payments.filter (fun p => p.payment_reference == ev.data.reference) = []) :
    webhookPOST hmac secret parseEvent db body (some (hmac secret body)) faults nowIso
      = (.received, db, []) ∧
    WebhookResp.received.statusCode = 200 ∧
    WebhookResp.received.errorBody = none := by
  refine ⟨?_, rfl, rfl⟩
  simp [webhookPOST, hparse, hev, href, singleRow]

/-- Witness for C4: a signed `charge.success` event with reference
`PAY-000-NOPE` against a store holding no payments. -/
theorem webhook_unknown_reference_ack_witness :
    webhookPOST exHmac "secret" (exParse exEventUnknownRef) exDb "body0"
        (some (exHmac "secret" "body0")) exWebNoFaults "now"
      = (.received, exDb, []) ∧
    WebhookResp.received.statusCode = 200 ∧
    WebhookResp.received.errorBody = none :=
  webhook_unknown_reference_ack exHmac "secret" (exParse exEventUnknownRef) exDb "body0"
    exWebNoFaults "now" exEventUnknownRef (by decide) rfl (by decide)

/-- C5: once user and car are resolved, a failed `bookings` insert
aborts the request with 500 (`Failed to create booking`, nothing else
written), while a failed `payments` insert does not abort — the handler
still answers success with the booking row committed. -/
theorem booking_insert_fatal_payment_insert_not
    (db db1 : Db) (req : BookingRequest) (faultsA faultsB : Faults) (userId : Nat)
    (carData : CarRow)
    (isoDate : String) (nowMs : Nat) (nowIso : String) (ordDigits payDigits : List Nat)
    (hmiss : requiredMissing req = false) :
    (resolveUser db req faultsA = .ok (userId, db1) →
      carByCatalogId db1 req = some carData →
      faultsA.bookingInsertErr = true →
      bookingCreatePOST db req faultsA isoDate nowMs nowIso ordDigits payDigits
          = (.bookingFailed, db1) ∧
      CreateResp.bookingFailed.statusCode = 500) ∧
    (resolveUser db req faultsB = .ok (userId, db1) →
      carByCatalogId db1 req = some carData →
      faultsB.bookingInsertErr = false →
      faultsB.paymentInsertErr = true →
      ∃ db', bookingCreatePOST db req faultsB isoDate nowMs nowIso ordDigits payDigits
          = (.success db1.nextBookingId (mkOrderId isoDate ordDigits)
              (mkPaymentRef nowMs payDigits), db') ∧
        db'.bookings = db1.bookings ++
          [mkBookingRow req db1.nextBookingId userId carData.id (mkOrderId isoDate ordDigits)
            (mkPaymentRef nowMs payDigits)] ∧
        (CreateResp.success db1.nextBookingId (mkOrderId isoDate ordDigits)
          (mkPaymentRef nowMs payDigits)).statusCode = 200) := by
  constructor
  · intro huser hcar hbk
    exact ⟨bookingCreatePOST_bookingFailed isoDate nowMs nowIso ordDigits payDigits
      hmiss huser hcar hbk, rfl⟩
  · intro huser hcar hbk hpay
    refine ⟨_, bookingCreatePOST_success_run isoDate nowMs nowIso ordDigits payDigits
      hmiss huser hcar hbk, ?_, rfl⟩
    rw [sessionStep_bookings, insertPaymentStep_bookings]
    rfl

/-- Witness for C5: the same request under a failing booking insert
(500, nothing written) and under a failing payment insert (success,
booking committed). -/
theorem booking_insert_fatal_payment_insert_not_witness :
    (bookingCreatePOST exDb exReqOk exFaultsBooking "2024-06-01T00:00:00.000Z"
        1717200000000 "t" [] [] = (.bookingFailed, exDbAfterUser) ∧
      CreateResp.bookingFailed.statusCode = 500) ∧
    (∃ db', bookingCreatePOST exDb exReqOk exFaultsPayment "2024-06-01T00:00:00.000Z"
        1717200000000 "t" [] []
        = (.success 1 (mkOrderId "2024-06-01T00:00:00.000Z" [])
            (mkPaymentRef 1717200000000 []), db') ∧
      db'.bookings = exDbAfterUser.bookings ++
        [mkBookingRow exReqOk 1 1 exCar.id (mkOrderId "2024-06-01T00:00:00.000Z" [])
          (mkPaymentRef 1717200000000 [])] ∧
      (CreateResp.success 1 (mkOrderId "2024-06-01T00:00:00.000Z" [])
        (mkPaymentRef 1717200000000 [])).statusCode = 200) :=
  ⟨(booking_insert_fatal_payment_insert_not exDb exDbAfterUser exReqOk exFaultsBooking
      exFaultsPayment 1 exCar "2024-06-01T00:00:00.000Z" 1717200000000 "t" [] []
      (by decide)).1 rfl (by decide) rfl,
   (booking_insert_fatal_payment_insert_not exDb exDbAfterUser exReqOk exFaultsBooking
      exFaultsPayment 1 exCar "2024-06-01T00:00:00.000Z" 1717200000000 "t" [] []
      (by decide)).2 rfl (by decide) rfl rfl⟩

/-- C6: a booking-creation request with any of car id, pickup date,
return date, full name, phone number or pickup location absent is
rejected with 400 `{error: "Missing required fields"}`, and the store
is untouched. -/
theorem missing_required_fields_rejected
    (db : Db) (req : BookingRequest) (faults : Faults)
    (isoDate : String) (nowMs : Nat) (nowIso : String) (ordDigits payDigits : List Nat)
    (h : req.car_id = none ∨ req.pickup_date = none ∨ req.return_date = none ∨
      req.full_name = none ∨ req.phone_number = none ∨ req.pickup_location = none) :
    bookingCreatePOST db req faults isoDate nowMs nowIso ordDigits payDigits
      = (.missingFields, db) ∧
    CreateResp.missingFields.statusCode = 400 ∧
    CreateResp.missingFields.errorBody = some "Missing required fields" := by
  have hmiss : requiredMissing req = true := by
    rcases h with h | h | h | h | h | h <;> simp [requiredMissing, truthy, h]
  exact ⟨by simp [bookingCreatePOST, hmiss], rfl, rfl⟩

/-- Witness for C6: the spec's scenario — a request missing
`pickup_location`. -/
theorem missing_required_fields_rejected_witness :
    bookingCreatePOST exDb exReqNoLocation exNoFaults "2024-06-01T00:00:00.000Z" 0 "t" [] []
      = (.missingFields, exDb) ∧
    CreateResp.missingFields.statusCode = 400 ∧
    CreateResp.missingFields.errorBody = some "Missing required fields" :=
  missing_required_fields_rejected exDb exReqNoLocation exNoFaults
    "2024-06-01T00:00:00.000Z" 0 "t" [] [] (by decide)

/-- C7 (amended): car resolution is an exact catalog-id lookup with no
condition on lifecycle status: a car id matching no row terminates the
request with 404 `{error: "Car not found"}`, and every accepted request
matched some car row — of any status. -/
theorem car_resolution_ignores_status
    (db db1 : Db) (req : BookingRequest) (faults : Faults) (userId : Nat)
    (isoDate : String) (nowMs : Nat) (nowIso : String) (ordDigits payDigits : List Nat)
    (hmiss : requiredMissing req = false)
    (huser : resolveUser db req faults = .ok (userId, db1)) :
    (carByCatalogId db1 req = none →
      bookingCreatePOST db req faults isoDate nowMs nowIso ordDigits payDigits
          = (.carNotFound, db1) ∧
      CreateResp.carNotFound.statusCode = 404 ∧
      CreateResp.carNotFound.errorBody = some "Car not found") ∧
    (∀ bid oid pref db',
      bookingCreatePOST db req faults isoDate nowMs nowIso ordDigits payDigits
          = (.success bid oid pref, db') →
      ∃ c ∈ db.cars, c.car_id = req.car_id.getD "") := by
  constructor
  · intro hcar
    exact ⟨bookingCreatePOST_carNotFound isoDate nowMs nowIso ordDigits payDigits
      hmiss huser hcar, rfl, rfl⟩
  · intro bid oid pref db' h
    obtain ⟨-, userId', db1', carData, huser', hcar, -⟩ := bookingCreatePOST_success_inv h
    obtain ⟨hcars, -, -, -, -⟩ := resolveUser_frame huser'
    unfold carByCatalogId at hcar
    have hmem := singleRow_mem hcar
    rw [hcars] at hmem
    have hmf := List.mem_filter.mp hmem
    exact ⟨carData, hmf.1, by simpa using hmf.2⟩

/-- C7 counterexample: a request for `CAR-002`, whose only matching car
row has status `inactive`, is accepted and a Booking is created —
refuting that only active cars are bookable. -/
theorem inactive_car_booked_cex :
    (bookingCreatePOST exDb exReqInactiveCar exNoFaults "2024-06-01T00:00:00.000Z"
        1717200000000 "t" [0,1,2,3,4,5] [0,1,2,3,4,5,6,7,8]).1
      = .success 1 "ORD-20240601-012345" "PAY-1717200000000-012345678" ∧
    (∀ c ∈ exDb.cars, c.car_id = "CAR-002" → ¬(c.status = "active")) ∧
    exReqInactiveCar.car_id = some "CAR-002" := by decide

/-- Witness for C7: a request for the unknown id `CAR-999` terminates
with 404 `Car not found`. -/
theorem car_resolution_ignores_status_witness :
    bookingCreatePOST exDb exReqUnknownCar exNoFaults "2024-06-01T00:00:00.000Z"
        1717200000000 "t" [] [] = (.carNotFound, exDbAfterUser) ∧
    CreateResp.carNotFound.statusCode = 404 ∧
    CreateResp.carNotFound.errorBody = some "Car not found" :=
  (car_resolution_ignores_status exDb exDbAfterUser exReqUnknownCar exNoFaults 1
    "2024-06-01T00:00:00.000Z" 1717200000000 "t" [] [] (by decide) rfl).1
    (by decide)

/-- C8 (amended): the generated order id is `ORD-<YYYYMMDD>-` followed
by AT MOST 6 uppercase base-36 characters — exactly 6 whenever the
random draw's base-36 expansion has at least 6 digits — and the payment
reference is `PAY-<epoch millis>-` followed by at most (exactly, under
the same proviso) 9 such characters. -/
theorem generated_id_shapes
    (isoDate : String) (nowMs : Nat) (ordDigits payDigits : List Nat)
    (h6 : ∀ d ∈ ordDigits, d < 36) (h9 : ∀ d ∈ payDigits, d < 36) :
    mkOrderId isoDate ordDigits
        = "ORD-" ++ isoDateCompact isoDate ++ "-" ++ randSuffix ordDigits 6 ∧
    mkPaymentRef nowMs payDigits
        = "PAY-" ++ toString nowMs ++ "-" ++ randSuffix payDigits 9 ∧
    (randSuffix ordDigits 6).length = min 6 ordDigits.length ∧
    (randSuffix payDigits 9).length = min 9 payDigits.length ∧
    (∀ c ∈ (randSuffix ordDigits 6).data, isUpperBase36 c = true) ∧
    (∀ c ∈ (randSuffix payDigits 9).data, isUpperBase36 c = true) ∧
    (6 ≤ ordDigits.length → (randSuffix ordDigits 6).length = 6) ∧
    (9 ≤ payDigits.length → (randSuffix payDigits 9).length = 9) := by
  have hchars : ∀ (digits : List Nat) (n : Nat), (∀ d ∈ digits, d < 36) →
      ∀ c ∈ (randSuffix digits n).data, isUpperBase36 c = true := by
    intro digits n hdig c hc
    simp only [randSuffix, List.mem_map] at hc
    obtain ⟨d, hd, rfl⟩ := hc
    exact base36Char_upper d (hdig d (List.mem_of_mem_take hd))
  refine ⟨rfl, rfl, randSuffix_length _ _, randSuffix_length _ _,
    hchars _ _ h6, hchars _ _ h9, ?_, ?_⟩
  · intro hlen
    rw [randSuffix_length]
    omega
  · intro hlen
    rw [randSuffix_length]
    omega

/-- C8 counterexample: the random draw 0 (base-36 expansion empty, as
with `Math.random()` returning `0`, whose `toString(36)` is just `0`)
yields a zero-character suffix on an accepted request — order id
`ORD-20240601-` and payment reference `PAY-1717200000000-`, not 6 and 9
characters. -/
theorem short_random_suffix_cex :
    (bookingCreatePOST exDb exReqOk exNoFaults "2024-06-01T00:00:00.000Z"
        1717200000000 "t" [] []).1
      = .success 1 (mkOrderId "2024-06-01T00:00:00.000Z" []) (mkPaymentRef 1717200000000 []) ∧
    mkOrderId "2024-06-01T00:00:00.000Z" [] = "ORD-20240601-" ∧
    ¬((randSuffix [] 6).length = 6) ∧
    mkPaymentRef 1717200000000 [] = "PAY-1717200000000-" ∧
    ¬((randSuffix [] 9).length = 9) := by decide

/-- Witness for C8: draws with long enough expansions do give exactly 6
and 9 characters. -/
theorem generated_id_shapes_witness :
    (randSuffix [0,1,2,3,4,5,35] 6).length = 6 ∧
    (randSuffix [0,1,2,3,4,5,6,7,8,35] 9).length = 9 :=
  ⟨(generated_id_shapes "2024-06-01T00:00:00.000Z" 0 [0,1,2,3,4,5,35]
      [0,1,2,3,4,5,6,7,8,35] (by decide) (by decide)).2.2.2.2.2.2.1 (by decide),
   (generated_id_shapes "2024-06-01T00:00:00.000Z" 0 [0,1,2,3,4,5,35]
      [0,1,2,3,4,5,6,7,8,35] (by decide) (by decide)).2.2.2.2.2.2.2 (by decide)⟩

/-- C9: for return strictly after pickup the wizard's day count is the
ceiling of the calendar-day difference with a minimum of 1 and the
total is `days * daily_rate`; in particular rate 200, pickup 2024-01-01
(epoch ms 1704067200000) and return 2024-01-03 (1704240000000) give
`days = 2` and `total_amount = 400`. -/
theorem wizard_days_and_total (pickupMs returnMs dailyRate : Int)
    (h : pickupMs < returnMs) :
    calculateBookingDetails pickupMs returnMs dailyRate
      = (specWizardDays pickupMs returnMs,
         (specWizardDays pickupMs returnMs : Int) * dailyRate) ∧
    calculateBookingDetails 1704067200000 1704240000000 200 = (2, 400) := by
  constructor
  · have h1 : 1 ≤ (returnMs - pickupMs).natAbs := by omega
    have hle : 1 ≤ ((returnMs - pickupMs).natAbs + (msPerDay - 1)) / msPerDay := by
      rw [Nat.one_le_div_iff (by norm_num [msPerDay])]
      simp [msPerDay]
      omega
    have hne : ¬(((returnMs - pickupMs).natAbs + (msPerDay - 1)) / msPerDay = 0) := by omega
    unfold calculateBookingDetails calcDays specWizardDays
    simp only [hne, if_false, Nat.max_eq_right hle]
  · decide

/-- Witness for C9: the theorem at the spec's scenario inputs. -/
theorem wizard_days_and_total_witness :
    calculateBookingDetails 1704067200000 1704240000000 200
      = (specWizardDays 1704067200000 1704240000000,
         (specWizardDays 1704067200000 1704240000000 : Int) * 200) ∧
    calculateBookingDetails 1704067200000 1704240000000 200 = (2, 400) :=
  wizard_days_and_total 1704067200000 1704240000000 200 (by decide)

/-- C10: a correctly signed webhook whose parsed event type is not
`charge.success` issues no write (the store is returned unchanged and
the write trace is empty) and answers 200 `{received: true}`. -/
theorem webhook_non_charge_event_no_write
    (hmac : String → String → String) (secret : String)
    (parseEvent : String → Option PaystackEvent) (db : Db) (body : String)
    (faults : WebhookFaults) (nowIso : String) (ev : PaystackEvent)
    (hparse : parseEvent body = some ev)
    (hev : ev.event ≠ "charge.success") :
    webhookPOST hmac secret parseEvent db body (some (hmac secret body)) faults nowIso
      = (.received, db, []) ∧
    WebhookResp.received.statusCode = 200 := by
  refine ⟨?_, rfl⟩
  simp [webhookPOST, hparse, hev]

/-- Witness for C10: a signed `charge.failed` event against `exDb`. -/
theorem webhook_non_charge_event_no_write_witness :
    webhookPOST exHmac "secret" (exParse exEventOther) exDb "body0"
        (some (exHmac "secret" "body0")) exWebNoFaults "now"
      = (.received, exDb, []) ∧
    WebhookResp.received.statusCode = 200 :=
  webhook_non_charge_event_no_write exHmac "secret" (exParse exEventOther) exDb "body0"
    exWebNoFaults "now" exEventOther (by decide) (by decide)

end SwiftCar
